import Mathlib

/-!
Shallow embedding of the MCP7940 RTC driver (src/mcp7940.c, src/mcp7940.h).

The driver talks to the device over a two-wire bus through the primitives
mcp7940_read and mcp7940_write.  The bus is modelled as an oracle plus a
trace: every read consumes the next byte from a list of device responses
(truncated to 8 bits, as the bus delivers single bytes), and every
transaction is logged as a BusEvent.  Theorems can therefore state exactly
which bus transactions an operation issues, and the effect of an operation
on the device is obtained by replaying the logged writes over a register
file with applyTrace.
-/

/-! Register addresses and bit masks, from src/mcp7940.h. -/

def MCP7940_RTCSEC : Nat := 0x00
def MCP7940_ST_bm : Nat := 0x80
def MCP7940_SECTEN_bm : Nat := 0x70
def MCP7940_RTCMIN : Nat := 0x01
def MCP7940_MINTEN_bm : Nat := 0x70
def MCP7940_RTCHOUR : Nat := 0x02
def MCP7940_HRTEN_bm : Nat := 0x30
def MCP7940_RTCWKDAY : Nat := 0x03
def MCP7940_OSCRUN_bm : Nat := 0x20
def MCP7940_PWRFAIL_bm : Nat := 0x10
def MCP7940_VBATEN_bm : Nat := 0x08
def MCP7940_RTCDATE : Nat := 0x04
def MCP7940_DATETEN_bm : Nat := 0x30
def MCP7940_RTCMTH : Nat := 0x05
def MCP7940_LPYR_bm : Nat := 0x20
def MCP7940_MTHTEN_bm : Nat := 0x10
def MCP7940_LPYR_bp : Nat := 5
def MCP7940_RTCYEAR : Nat := 0x06
def MCP7940_YRTEN_bm : Nat := 0xF0
def MCP7940_OSCTRIM : Nat := 0x08
def MCP7940_PWRDNMIN : Nat := 0x18
def MCP7940_PWRUPMIN : Nat := 0x1C
def MCP7940_PWRDNHOUR : Nat := 0x19
def MCP7940_PWRUPHOUR : Nat := 0x1D
def MCP7940_PWRDNDATE : Nat := 0x1A
def MCP7940_PWRUPDATE : Nat := 0x1E
def MCP7940_PWRDNMTH : Nat := 0x1B
def MCP7940_PWRUPMTH : Nat := 0x1F
def MCP7940_PWRWEEKDAY_bp : Nat := 5

/-! Enumerations from src/mcp7940.h (constructor names follow the C
enumerator names MCP7940_Error_None, MCP7940_Trim_Substract, ...). -/

inductive MCP7940_Error where
| Error_None
| Error_Fail
deriving DecidableEq, Repr

inductive MCP7940_Mode where
| Mode_Disable
| Mode_Enable
deriving DecidableEq, Repr

inductive MCP7940_Trim where
| Trim_Substract
| Trim_Add
deriving DecidableEq, Repr

inductive MCP7940_LeapYear where
| LeapYear_False
| LeapYear_True
deriving DecidableEq, Repr

inductive MCP7940_Register where
| Register_Current_Time
| Register_Power_Down_Time
| Register_Power_Up_Time
deriving DecidableEq, Repr

/-- Conversion of a C integer expression to the MCP7940_LeapYear enum
(enumerator values 0 and 1). -/
def leapYearOfNat (n : Nat) : MCP7940_LeapYear :=
  if n = 0 then .LeapYear_False else .LeapYear_True

/-! Structured time and date records, from the shared format header
(FORMAT_Time, FORMAT_Date, FORMAT_DateTime).  Fields are binary
magnitudes, modelled as Nat. -/

structure FORMAT_Time where
  hour : Nat
  minute : Nat
  second : Nat
deriving DecidableEq, Repr

structure FORMAT_Date where
  day : Nat
  month : Nat
  year : Nat
deriving DecidableEq, Repr

structure FORMAT_DateTime where
  time : FORMAT_Time
  date : FORMAT_Date
deriving DecidableEq, Repr

/-- Result domain of the external validation collaborator. -/
inductive RETURN where
| Valid
| Invalid
deriving DecidableEq, Repr

/-- Modelled from the spec: validate_time is an external collaborator
(utils/time/validate.h, not under src/); per the spec data model a Time is
valid when hour is in 0..23, minute in 0..59 and second in 0..59. -/
def validate_time (time : FORMAT_Time) : RETURN :=
  if time.hour ≤ 23 ∧ time.minute ≤ 59 ∧ time.second ≤ 59 then .Valid else .Invalid

/-- Modelled from the spec: validate_date is an external collaborator
(utils/time/validate.h, not under src/); per the spec data model a Date is
valid when day is in 1..31, month in 1..12 and year in 0..99. -/
def validate_date (date : FORMAT_Date) : RETURN :=
  if 1 ≤ date.day ∧ date.day ≤ 31 ∧ 1 ≤ date.month ∧ date.month ≤ 12 ∧ date.year ≤ 99
  then .Valid else .Invalid

/-! Bus model. -/

/-- One bus transaction as issued by the driver primitives: a register
write carrying the written byte, or a register read. -/
inductive BusEvent where
| write (addr data : Nat)
| read (addr : Nat)
deriving DecidableEq, Repr

/-- Bus state threaded through the driver: resp is the oracle of pending
device read responses (consumed in order; the device may answer anything,
which models faults such as a mismatched trim readback), trace is the log
of transactions issued so far. -/
structure BusState where
  resp : List Nat
  trace : List BusEvent
deriving DecidableEq, Repr

/-- Driver primitive mcp7940_write: one addressed byte write on the bus. -/
def mcp7940_write (address data : Nat) (s : BusState) : BusState :=
  { s with trace := s.trace ++ [.write address data] }

/-- Driver primitive mcp7940_read: one addressed byte read on the bus; the
returned byte is the next oracle response, truncated to 8 bits (the bus
delivers a single unsigned char). -/
def mcp7940_read (address : Nat) (s : BusState) : Nat × BusState :=
  (s.resp.headD 0 % 256, { resp := s.resp.tail, trace := s.trace ++ [.read address] })

/-- Effect of one logged transaction on a device register file: a write
stores its byte at its address, a read changes nothing. -/
def applyEvent (regs : Nat → Nat) : BusEvent → (Nat → Nat)
| .write a d => fun x => if x = a then d else regs x
| .read _ => regs

/-- Replay of a trace over a device register file, in order. -/
def applyTrace (regs : Nat → Nat) (es : List BusEvent) : Nat → Nat :=
  es.foldl applyEvent regs

/-! The weekday label table and lookup, from src/mcp7940.c lines 22-55. -/

/-- The weeksdays table: eight 3-letter labels, index 7 is the fallback. -/
def weeksdays : List String :=
  ["MON", "TUE", "WED", "THU", "FRI", "SAT", "SUN", "???"]

/-- mcp7940_weekday_string returns weeksdays[0x07 & (day - 1)].  In C, day
is an unsigned char promoted to int, so for day = 0 the subtraction gives
-1 and the mask yields 7; since the mask only depends on the value mod 8
and 256 is a multiple of 8, 0x07 & (day - 1) equals 0x07 & (day + 255)
for every byte value of day.  An out-of-range index would return the
default "", which never happens (the index is at most 7). -/
def mcp7940_weekday_string (day : Nat) : String :=
  weeksdays.getD (0x07 &&& (day + 255)) ""

/-! The BCD codec, from src/mcp7940.c lines 84-87 and 486-489.  Both C
functions return unsigned char, hence the final truncation mod 256. -/

/-- mcp7940_tobinary: decode a BCD register byte with the field tens mask. -/
def mcp7940_tobinary (value mask : Nat) : Nat :=
  (((mask &&& value) >>> 4) * 10 + (0x0F &&& value)) % 256

/-- mcp7940_tobcd: encode a binary magnitude as a BCD byte. -/
def mcp7940_tobcd (value : Nat) : Nat :=
  (((value / 10) <<< 4) ||| (value % 10)) % 256

/-- mcp7940_data: read a register and decode it with the given tens mask. -/
def mcp7940_data (address mask : Nat) (s : BusState) : Nat × BusState :=
  let r := mcp7940_read address s
  (mcp7940_tobinary r.1 mask, r.2)

/-! The configuration controller operations the claims need. -/

/-- mcp7940_oscillator in the default build (MCP7940_USE_EXTOSC not
defined): read-modify-write of the ST bit in the seconds register.  The C
expression (~MCP7940_ST_bm) & temp on an unsigned char equals
(0xFF ^^^ MCP7940_ST_bm) &&& temp. -/
def mcp7940_oscillator (mode : MCP7940_Mode) (s : BusState) : BusState :=
  let r := mcp7940_read MCP7940_RTCSEC s
  match mode with
  | .Mode_Enable => mcp7940_write MCP7940_RTCSEC (MCP7940_ST_bm ||| r.1) r.2
  | .Mode_Disable => mcp7940_write MCP7940_RTCSEC ((0xFF ^^^ MCP7940_ST_bm) &&& r.1) r.2

/-- mcp7940_trimming: mask the magnitude to 7 bits, set bit 7 when the
mode is Add, write the byte to the trim register, read it back once and
compare. -/
def mcp7940_trimming (mode : MCP7940_Trim) (value : Nat) (s : BusState) :
    MCP7940_Error × BusState :=
  let value := value &&& 0x7F
  let value := match mode with
    | .Trim_Add => value ||| 0x80
    | .Trim_Substract => value
  let s1 := mcp7940_write MCP7940_OSCTRIM value s
  let r := mcp7940_read MCP7940_OSCTRIM s1
  if r.1 = value then (.Error_None, r.2) else (.Error_Fail, r.2)

/-- mcp7940_leapyear: note that the source reads the register at address
MCP7940_LPYR_bm (the bit mask, 0x20), not the month register, and shifts
the 3-bit masked byte right by MCP7940_LPYR_bp = 5. -/
def mcp7940_leapyear (s : BusState) : MCP7940_LeapYear × BusState :=
  let r := mcp7940_read MCP7940_LPYR_bm s
  (leapYearOfNat ((0x07 &&& r.1) >>> MCP7940_LPYR_bp), r.2)

/-- mcp7940_setweekday: reject an index of 7 or more without touching the
bus, otherwise read-modify-write the weekday field of RTCWKDAY. -/
def mcp7940_setweekday (weekday : Nat) (s : BusState) : MCP7940_Error × BusState :=
  if weekday ≥ 7 then (.Error_Fail, s)
  else
    let r := mcp7940_read MCP7940_RTCWKDAY s
    let s2 := mcp7940_write MCP7940_RTCWKDAY ((0xF8 &&& r.1) ||| (0x07 &&& (weekday + 1))) r.2
    (.Error_None, s2)

/-! The register block selectors and read accessors, from src/mcp7940.c
lines 250-419. -/

/-- mcp7940_hour: select the hour register of the block and decode it. -/
def mcp7940_hour (data : MCP7940_Register) (s : BusState) : Nat × BusState :=
  let temp := match data with
    | .Register_Power_Down_Time => MCP7940_PWRDNHOUR
    | .Register_Power_Up_Time => MCP7940_PWRUPHOUR
    | _ => MCP7940_RTCHOUR
  mcp7940_data temp MCP7940_HRTEN_bm s

/-- mcp7940_minute: select the minute register of the block and decode it. -/
def mcp7940_minute (data : MCP7940_Register) (s : BusState) : Nat × BusState :=
  let temp := match data with
    | .Register_Power_Down_Time => MCP7940_PWRDNMIN
    | .Register_Power_Up_Time => MCP7940_PWRUPMIN
    | _ => MCP7940_RTCMIN
  mcp7940_data temp MCP7940_MINTEN_bm s

/-- mcp7940_second: decode the current-time seconds register. -/
def mcp7940_second (s : BusState) : Nat × BusState :=
  mcp7940_data MCP7940_RTCSEC MCP7940_SECTEN_bm s

/-- mcp7940_day: select the date register of the block and decode it. -/
def mcp7940_day (data : MCP7940_Register) (s : BusState) : Nat × BusState :=
  let temp := match data with
    | .Register_Power_Down_Time => MCP7940_PWRDNDATE
    | .Register_Power_Up_Time => MCP7940_PWRUPDATE
    | _ => MCP7940_RTCDATE
  mcp7940_data temp MCP7940_DATETEN_bm s

/-- mcp7940_month: select the month register of the block and decode it. -/
def mcp7940_month (data : MCP7940_Register) (s : BusState) : Nat × BusState :=
  let temp := match data with
    | .Register_Power_Down_Time => MCP7940_PWRDNMTH
    | .Register_Power_Up_Time => MCP7940_PWRUPMTH
    | _ => MCP7940_RTCMTH
  mcp7940_data temp MCP7940_MTHTEN_bm s

/-- mcp7940_year: decode the current-time year register. -/
def mcp7940_year (s : BusState) : Nat × BusState :=
  mcp7940_data MCP7940_RTCYEAR MCP7940_YRTEN_bm s

/-- mcp7940_time: populate a FORMAT_Time from the selected block; seconds
are read only for the current-time block, else set to 0 with no read. -/
def mcp7940_time (reg : MCP7940_Register) (s : BusState) : FORMAT_Time × BusState :=
  let h := mcp7940_hour reg s
  let m := mcp7940_minute reg h.2
  match reg with
  | .Register_Current_Time =>
      let sec := mcp7940_second m.2
      (⟨h.1, m.1, sec.1⟩, sec.2)
  | _ => (⟨h.1, m.1, 0⟩, m.2)

/-- mcp7940_date: populate a FORMAT_Date from the selected block; the year
is read only for the current-time block, else set to 0 with no read. -/
def mcp7940_date (reg : MCP7940_Register) (s : BusState) : FORMAT_Date × BusState :=
  let d := mcp7940_day reg s
  let m := mcp7940_month reg d.2
  match reg with
  | .Register_Current_Time =>
      let y := mcp7940_year m.2
      (⟨d.1, m.1, y.1⟩, y.2)
  | _ => (⟨d.1, m.1, 0⟩, m.2)

/-! The write path, from src/mcp7940.c lines 486-563. -/

/-- mcp7940_setdata: BCD-encode and write three values to three registers. -/
def mcp7940_setdata (a1 v1 a2 v2 a3 v3 : Nat) (s : BusState) : BusState :=
  let s1 := mcp7940_write a1 (mcp7940_tobcd v1) s
  let s2 := mcp7940_write a2 (mcp7940_tobcd v2) s1
  mcp7940_write a3 (mcp7940_tobcd v3) s2

/-- mcp7940_settime: validate, and on rejection return Fail with no bus
transaction; on success write hour, minute, second and re-enable the
oscillator. -/
def mcp7940_settime (time : FORMAT_Time) (s : BusState) : MCP7940_Error × BusState :=
  if validate_time time ≠ .Valid then (.Error_Fail, s)
  else
    let s1 := mcp7940_setdata
      MCP7940_RTCHOUR time.hour
      MCP7940_RTCMIN time.minute
      MCP7940_RTCSEC time.second s
    let s2 := mcp7940_oscillator .Mode_Enable s1
    (.Error_None, s2)

/-- mcp7940_setdate: validate, and on rejection return Fail with no bus
transaction; on success write day, month, year. -/
def mcp7940_setdate (date : FORMAT_Date) (s : BusState) : MCP7940_Error × BusState :=
  if validate_date date ≠ .Valid then (.Error_Fail, s)
  else
    let s1 := mcp7940_setdata
      MCP7940_RTCDATE date.day
      MCP7940_RTCMTH date.month
      MCP7940_RTCYEAR date.year s
    (.Error_None, s1)

/-! Helper lemmas shared by the claim theorems. -/

/-- A byte masked with 0x07 is below 32, so shifting it right by the
leap-year bit position 5 always gives 0. -/
theorem land7_shift5 (n : Nat) : (0x07 &&& n) >>> MCP7940_LPYR_bp = 0 := by
  rw [Nat.shiftRight_eq_div_pow]
  exact Nat.div_eq_of_lt (lt_of_le_of_lt (Nat.and_le_left) (by norm_num [MCP7940_LPYR_bp]))

set_option maxRecDepth 10000 in
/-- Masking with 0x7F is the identity below 128, and bit 7 is clear there. -/
theorem and_7F_eq_self : ∀ v < 128, v &&& 0x7F = v ∧ v &&& 0x80 = 0 := by decide

set_option maxRecDepth 10000 in
set_option maxHeartbeats 1000000 in
/-- The merged weekday byte carries the 1-based weekday in its low 3 bits
and agrees with the old byte on the flag bits 0x38. -/
theorem weekday_merge_bits : ∀ t < 256, ∀ w < 7,
    (((0xF8 &&& t) ||| (0x07 &&& (w + 1))) &&& 0x07 = w + 1) ∧
    (((0xF8 &&& t) ||| (0x07 &&& (w + 1))) &&& 0x38 = t &&& 0x38) := by decide

set_option maxRecDepth 10000 in
/-- The BCD encoding of a legal month has the leap-year bit clear. -/
theorem tobcd_month_lpyr : ∀ m < 13, mcp7940_tobcd m &&& MCP7940_LPYR_bm = 0 := by decide

/-- Every in-range lookup in the weekday table yields a table entry. -/
theorem weeksdays_getD_mem : ∀ i < 8, weeksdays.getD i "" ∈ weeksdays := by decide

/-! Claim theorems. -/

set_option maxRecDepth 10000 in
set_option maxHeartbeats 1000000 in
/-- C1: for every magnitude in the legal range of a BCD field (0-59 for
seconds and minutes, 0-23 for hours, 1-31 for day, 1-12 for month, 0-99
for year), decoding the encoded byte with the field tens mask returns the
magnitude: mcp7940_tobinary (mcp7940_tobcd m) mask = m. -/
theorem C1_bcd_roundtrip :
    (∀ m < 60, mcp7940_tobinary (mcp7940_tobcd m) MCP7940_SECTEN_bm = m) ∧
    (∀ m < 60, mcp7940_tobinary (mcp7940_tobcd m) MCP7940_MINTEN_bm = m) ∧
    (∀ m < 24, mcp7940_tobinary (mcp7940_tobcd m) MCP7940_HRTEN_bm = m) ∧
    (∀ m < 32, 1 ≤ m → mcp7940_tobinary (mcp7940_tobcd m) MCP7940_DATETEN_bm = m) ∧
    (∀ m < 13, 1 ≤ m → mcp7940_tobinary (mcp7940_tobcd m) MCP7940_MTHTEN_bm = m) ∧
    (∀ m < 100, mcp7940_tobinary (mcp7940_tobcd m) MCP7940_YRTEN_bm = m) := by
  decide

/-- Witness for C1 at concrete inputs of each field. -/
theorem C1_bcd_roundtrip_witness :
    mcp7940_tobinary (mcp7940_tobcd 59) MCP7940_SECTEN_bm = 59 ∧
    mcp7940_tobinary (mcp7940_tobcd 23) MCP7940_HRTEN_bm = 23 ∧
    mcp7940_tobinary (mcp7940_tobcd 31) MCP7940_DATETEN_bm = 31 ∧
    mcp7940_tobinary (mcp7940_tobcd 12) MCP7940_MTHTEN_bm = 12 ∧
    mcp7940_tobinary (mcp7940_tobcd 99) MCP7940_YRTEN_bm = 99 :=
  ⟨C1_bcd_roundtrip.1 59 (by decide),
   C1_bcd_roundtrip.2.2.1 23 (by decide),
   C1_bcd_roundtrip.2.2.2.1 31 (by decide) (by decide),
   C1_bcd_roundtrip.2.2.2.2.1 12 (by decide) (by decide),
   C1_bcd_roundtrip.2.2.2.2.2 99 (by decide)⟩

/-- C2: for every Time rejected by validate_time and every Date rejected
by validate_date, mcp7940_settime respectively mcp7940_setdate returns
MCP7940_Error_Fail and leaves the bus state completely unchanged: no bus
transaction is issued, hence the device state is untouched. -/
theorem C2_reject_no_write :
    ∀ (t : FORMAT_Time) (d : FORMAT_Date) (s : BusState),
      (validate_time t ≠ .Valid → mcp7940_settime t s = (.Error_Fail, s)) ∧
      (validate_date d ≠ .Valid → mcp7940_setdate d s = (.Error_Fail, s)) := by
  intro t d s
  constructor
  · intro h
    simp [mcp7940_settime, h]
  · intro h
    simp [mcp7940_setdate, h]

/-- Witness for C2: an hour of 24 and a day of 0 are rejected with no
transaction. -/
theorem C2_reject_no_write_witness :
    mcp7940_settime ⟨24, 0, 0⟩ ⟨[], []⟩ = (.Error_Fail, ⟨[], []⟩) ∧
    mcp7940_setdate ⟨0, 1, 0⟩ ⟨[], []⟩ = (.Error_Fail, ⟨[], []⟩) :=
  ⟨(C2_reject_no_write ⟨24, 0, 0⟩ ⟨0, 1, 0⟩ ⟨[], []⟩).1 (by decide),
   (C2_reject_no_write ⟨24, 0, 0⟩ ⟨0, 1, 0⟩ ⟨[], []⟩).2 (by decide)⟩

/-- C3: for every magnitude v of at most 127, mcp7940_trimming with
direction Add writes the byte 0x80 ||| v to the trim register and with
direction Subtract writes v, whose bit 7 is clear; in both cases it then
reads the register back exactly once (the trace holds exactly one write
followed by one read, so there is no retry), returns Error_None when the
readback byte equals the written byte and Error_Fail otherwise. -/
theorem C3_trimming_write_verify :
    ∀ (v : Nat) (s : BusState), v ≤ 127 →
      (mcp7940_trimming .Trim_Add v s =
        ((if s.resp.headD 0 % 256 = 0x80 ||| v then .Error_None else .Error_Fail),
         ⟨s.resp.tail,
          s.trace ++ [.write MCP7940_OSCTRIM (0x80 ||| v), .read MCP7940_OSCTRIM]⟩)) ∧
      (mcp7940_trimming .Trim_Substract v s =
        ((if s.resp.headD 0 % 256 = v then .Error_None else .Error_Fail),
         ⟨s.resp.tail,
          s.trace ++ [.write MCP7940_OSCTRIM v, .read MCP7940_OSCTRIM]⟩)) ∧
      v &&& 0x80 = 0 := by
  intro v s hv
  have h := and_7F_eq_self v (by omega)
  refine ⟨?_, ?_, h.2⟩
  · simp only [mcp7940_trimming, mcp7940_write, mcp7940_read, h.1, Nat.lor_comm]
    split <;> simp
  · simp only [mcp7940_trimming, mcp7940_write, mcp7940_read, h.1]
    split <;> simp

/-- Witness for C3: trimming by 5 in the Add direction against a matching
readback. -/
theorem C3_trimming_write_verify_witness :
    mcp7940_trimming .Trim_Add 5 ⟨[0x85], []⟩
      = (.Error_None, ⟨[], [.write MCP7940_OSCTRIM 0x85, .read MCP7940_OSCTRIM]⟩) :=
  ((C3_trimming_write_verify 5 ⟨[0x85], []⟩ (by decide)).1).trans (by decide)

/-- C4: for every weekday index below 7, mcp7940_setweekday returns
Error_None, issues one read of the weekday register and one write whose
byte carries the device value w + 1 in its low 3 bits while agreeing with
the read byte on the flag bits (oscillator-running, power-fail, battery);
for every index of 7 or more it returns Error_Fail with the bus state
unchanged, hence no bus transaction. -/
theorem C4_setweekday :
    ∀ (w : Nat) (s : BusState),
      (w < 7 →
        mcp7940_setweekday w s =
          (.Error_None, ⟨s.resp.tail,
            s.trace ++ [.read MCP7940_RTCWKDAY,
              .write MCP7940_RTCWKDAY
                ((0xF8 &&& (s.resp.headD 0 % 256)) ||| (0x07 &&& (w + 1)))]⟩) ∧
        ((0xF8 &&& (s.resp.headD 0 % 256)) ||| (0x07 &&& (w + 1))) &&& 0x07 = w + 1 ∧
        ((0xF8 &&& (s.resp.headD 0 % 256)) ||| (0x07 &&& (w + 1))) &&&
            (MCP7940_OSCRUN_bm ||| MCP7940_PWRFAIL_bm ||| MCP7940_VBATEN_bm)
          = (s.resp.headD 0 % 256) &&&
            (MCP7940_OSCRUN_bm ||| MCP7940_PWRFAIL_bm ||| MCP7940_VBATEN_bm)) ∧
      (7 ≤ w → mcp7940_setweekday w s = (.Error_Fail, s)) := by
  intro w s
  constructor
  · intro hw
    have hmerge := weekday_merge_bits (s.resp.headD 0 % 256) (Nat.mod_lt _ (by norm_num)) w hw
    have hmask : MCP7940_OSCRUN_bm ||| MCP7940_PWRFAIL_bm ||| MCP7940_VBATEN_bm = 0x38 := by
      decide
    refine ⟨?_, hmerge.1, ?_⟩
    · have hns : ¬ w ≥ 7 := by omega
      simp [mcp7940_setweekday, hns, mcp7940_read, mcp7940_write]
    · rw [hmask]
      exact hmerge.2
  · intro hw
    simp [mcp7940_setweekday, hw]

/-- Witness for C4: index 3 with flag bits all set in the read byte. -/
theorem C4_setweekday_witness :
    mcp7940_setweekday 3 ⟨[0xFF], []⟩
      = (.Error_None, ⟨[], [.read MCP7940_RTCWKDAY, .write MCP7940_RTCWKDAY 0xFC]⟩) :=
  (((C4_setweekday 3 ⟨[0xFF], []⟩).1 (by decide)).1).trans (by decide)

/-- C5: for every bus state, reading the time from the power-down or
power-up block yields second = 0 and issues exactly the two reads for the
hour and minute registers, and reading the date from those blocks yields
year = 0 and issues exactly the two reads for the date and month
registers; no transaction is issued for the absent seconds or year field. -/
theorem C5_power_blocks_zero :
    ∀ s : BusState,
      (mcp7940_time .Register_Power_Down_Time s).1.second = 0 ∧
      (mcp7940_time .Register_Power_Up_Time s).1.second = 0 ∧
      (mcp7940_time .Register_Power_Down_Time s).2.trace
        = s.trace ++ [.read MCP7940_PWRDNHOUR, .read MCP7940_PWRDNMIN] ∧
      (mcp7940_time .Register_Power_Up_Time s).2.trace
        = s.trace ++ [.read MCP7940_PWRUPHOUR, .read MCP7940_PWRUPMIN] ∧
      (mcp7940_date .Register_Power_Down_Time s).1.year = 0 ∧
      (mcp7940_date .Register_Power_Up_Time s).1.year = 0 ∧
      (mcp7940_date .Register_Power_Down_Time s).2.trace
        = s.trace ++ [.read MCP7940_PWRDNDATE, .read MCP7940_PWRDNMTH] ∧
      (mcp7940_date .Register_Power_Up_Time s).2.trace
        = s.trace ++ [.read MCP7940_PWRUPDATE, .read MCP7940_PWRUPMTH] := by
  intro s
  simp [mcp7940_time, mcp7940_date, mcp7940_hour, mcp7940_minute, mcp7940_day,
    mcp7940_month, mcp7940_data, mcp7940_read]

/-- C6 counterexample: the claim states that every input outside 1-7
returns the fallback label, but the input 9 wraps to table index 0 and
returns the label MON, not the fallback. -/
theorem C6_weekday_labels_counterexample :
    mcp7940_weekday_string 9 = "MON" ∧ mcp7940_weekday_string 9 ≠ "???" := by
  decide

set_option maxRecDepth 10000 in
set_option maxHeartbeats 1000000 in
/-- C6 (amended): mcp7940_weekday_string maps device values 1 through 7
respectively to MON, TUE, WED, THU, FRI, SAT, SUN, and maps 0 and 8 to
the fallback label; any other byte value wraps into the table at index
(day - 1) mod 8, so the fallback is returned exactly for the byte values
divisible by 8. -/
theorem C6_weekday_labels :
    mcp7940_weekday_string 1 = "MON" ∧ mcp7940_weekday_string 2 = "TUE" ∧
    mcp7940_weekday_string 3 = "WED" ∧ mcp7940_weekday_string 4 = "THU" ∧
    mcp7940_weekday_string 5 = "FRI" ∧ mcp7940_weekday_string 6 = "SAT" ∧
    mcp7940_weekday_string 7 = "SUN" ∧ mcp7940_weekday_string 0 = "???" ∧
    mcp7940_weekday_string 8 = "???" ∧
    (∀ day < 256, (mcp7940_weekday_string day = "???" ↔ day % 8 = 0)) := by
  decide

/-- Witness for C6 (amended) at the byte value 16, a multiple of 8. -/
theorem C6_weekday_labels_witness :
    mcp7940_weekday_string 16 = "???" ↔ 16 % 8 = 0 :=
  C6_weekday_labels.2.2.2.2.2.2.2.2.2 16 (by decide)

/-- C7 counterexample: the claim states that trimming with magnitude 0
writes the byte 0x00 for every mode, but in the Add direction the code
sets bit 7 unconditionally and writes 0x80. -/
theorem C7_zero_trim_counterexample :
    (mcp7940_trimming .Trim_Add 0 ⟨[], []⟩).2.trace
      = [.write MCP7940_OSCTRIM 0x80, .read MCP7940_OSCTRIM] ∧ (0x80 : Nat) ≠ 0x00 := by
  decide

/-- C7 (amended): mcp7940_trimming with magnitude 0 writes the byte 0x00
in the Subtract direction, but writes 0x80 in the Add direction: bit 7
encodes only the direction and is not cleared when the magnitude is 0. -/
theorem C7_zero_trim :
    ∀ s : BusState,
      (mcp7940_trimming .Trim_Substract 0 s).2.trace
        = s.trace ++ [.write MCP7940_OSCTRIM 0x00, .read MCP7940_OSCTRIM] ∧
      (mcp7940_trimming .Trim_Add 0 s).2.trace
        = s.trace ++ [.write MCP7940_OSCTRIM 0x80, .read MCP7940_OSCTRIM] := by
  intro s
  constructor
  · simp only [mcp7940_trimming, mcp7940_write, mcp7940_read]
    split <;> simp
  · simp only [mcp7940_trimming, mcp7940_write, mcp7940_read]
    split <;> simp

/-- C8 counterexample: the claim states that mcp7940_setdate leaves the
leap-year bit of the month register unchanged, but starting from a device
whose month register has the bit set, writing the valid date 1.1.00
leaves the bit cleared: the whole month byte is overwritten with the BCD
month, whose bit 5 is 0. -/
theorem C8_leapyear_bit_counterexample :
    validate_date ⟨1, 1, 0⟩ = .Valid ∧
    (fun a => if a = MCP7940_RTCMTH then 0x20 else 0 : Nat → Nat) MCP7940_RTCMTH
        &&& MCP7940_LPYR_bm = 0x20 ∧
    applyTrace (fun a => if a = MCP7940_RTCMTH then 0x20 else 0)
        (mcp7940_setdate ⟨1, 1, 0⟩ ⟨[], []⟩).2.trace MCP7940_RTCMTH
        &&& MCP7940_LPYR_bm = 0 := by
  decide

/-- C8 (amended): for every valid Date, mcp7940_setdate overwrites the
month register with the BCD-encoded month, whose leap-year bit (bit 5) is
always clear for months up to 12; after the write the leap-year bit reads
as 0 regardless of its previous value, the device being assumed to
recompute it internally. -/
theorem C8_leapyear_bit :
    ∀ (d : FORMAT_Date) (resp : List Nat) (regs : Nat → Nat),
      validate_date d = .Valid →
      applyTrace regs (mcp7940_setdate d ⟨resp, []⟩).2.trace MCP7940_RTCMTH
          = mcp7940_tobcd d.month ∧
      mcp7940_tobcd d.month &&& MCP7940_LPYR_bm = 0 := by
  intro d resp regs hvalid
  have hm : d.month < 13 := by
    by_contra hm
    simp [validate_date] at hvalid
    omega
  constructor
  · have hv : ¬ validate_date d ≠ .Valid := by simp [hvalid]
    simp [mcp7940_setdate, hv, mcp7940_setdata, mcp7940_write, applyTrace, applyEvent,
      MCP7940_RTCDATE, MCP7940_RTCMTH, MCP7940_RTCYEAR]
  · exact tobcd_month_lpyr d.month hm

/-- Witness for C8 (amended): writing the valid date 1.2.03. -/
theorem C8_leapyear_bit_witness :
    applyTrace (fun _ => 0) (mcp7940_setdate ⟨1, 2, 3⟩ ⟨[], []⟩).2.trace MCP7940_RTCMTH
        = mcp7940_tobcd 2 ∧
    mcp7940_tobcd 2 &&& MCP7940_LPYR_bm = 0 :=
  C8_leapyear_bit ⟨1, 2, 3⟩ [] (fun _ => 0) (by decide)

/-- C9: for every bus state, mcp7940_leapyear returns LeapYear_False and
issues exactly one read, at the address MCP7940_LPYR_bm (0x20, the bit
mask used as an address) instead of the month register: the expression
(0x07 &&& byte) >>> 5 is 0 for every byte, so the function can never
report a leap year. -/
theorem C9_leapyear_always_false :
    ∀ s : BusState,
      mcp7940_leapyear s
        = (.LeapYear_False, ⟨s.resp.tail, s.trace ++ [.read MCP7940_LPYR_bm]⟩) ∧
      MCP7940_LPYR_bm = 0x20 ∧ MCP7940_LPYR_bm ≠ MCP7940_RTCMTH := by
  intro s
  refine ⟨?_, by decide, by decide⟩
  simp [mcp7940_leapyear, mcp7940_read, leapYearOfNat, land7_shift5]

/-- C10: for every input day (any natural number, so in particular every
unsigned char including 0 and values above 7), the index computed by
mcp7940_weekday_string is below the length 8 of the weeksdays table, and
the returned string is one of the eight entries of the table. -/
theorem C10_weekday_string_safe :
    ∀ day : Nat,
      (0x07 &&& (day + 255)) < weeksdays.length ∧
      mcp7940_weekday_string day ∈ weeksdays := by
  intro day
  have hlt : (0x07 &&& (day + 255)) < 8 :=
    lt_of_le_of_lt (Nat.and_le_left) (by norm_num)
  refine ⟨by simpa [weeksdays] using hlt, ?_⟩
  simpa [mcp7940_weekday_string] using weeksdays_getD_mem _ hlt
